import Mathlib

/-!
A verification development for the astronomical computation engine of the
sun-clock repository (`src/components/SunClock.tsx` and the related variants
bundled with the sources).  The JavaScript functions are shallowly embedded
over `ℝ` (IEEE doubles are modelled by exact reals, `Math.sin`/`Math.cos`/
`Math.tan`/`Math.acos`/`Math.asin` by the Mathlib real functions, and the
JavaScript `%` operator by truncated remainder `jsFmod`).  Integer-valued
calendar arithmetic is embedded over `ℤ`.
-/

namespace SunClockModel

open Real

/-- Truncation toward zero, the rounding used by the JavaScript `%` operator. -/
noncomputable def jsTrunc (x : ℝ) : ℤ := if 0 ≤ x then ⌊x⌋ else ⌈x⌉

/-- The JavaScript remainder operator `a % b` on (finite) numbers:
`a - b * trunc (a / b)`. -/
noncomputable def jsFmod (a b : ℝ) : ℝ := a - b * jsTrunc (a / b)

/-- The JavaScript remainder operator on integral values (positive modulus):
truncated remainder, negative when the dividend is negative. -/
def jsIntMod (a b : ℤ) : ℤ := if 0 ≤ a then a % b else -(-a % b)

/-- `SYNODIC_PERIOD` from SunClock.tsx line 12. -/
def SYNODIC_PERIOD : ℝ := 29.53058770576

/-- `WINTER_SOLSTICE_DAY` from SunClock.tsx line 15. -/
def WINTER_SOLSTICE_DAY : ℤ := 355

/-- Gregorian leap-year rule, the rule implemented by the ECMAScript `Date`
built-in that `getDaysInYear` consults. -/
def isGregorianLeap (y : ℤ) : Bool := (y % 4 == 0 && y % 100 != 0) || y % 400 == 0

/-- Number of days of 0-based month `m` of year `y` in the proleptic Gregorian
calendar used by the ECMAScript `Date` built-in. -/
def monthLength (y : ℤ) (m : ℕ) : ℤ :=
  if m = 1 then (if isGregorianLeap y then 29 else 28)
  else if m = 3 ∨ m = 5 ∨ m = 8 ∨ m = 10 then 30
  else 31

/-- ECMAScript `MakeFullYear`: a year argument of the `Date` constructor in
the range 0–99 denotes the year 1900 + y; other values denote themselves. -/
def makeFullYear (y : ℤ) : ℤ := if 0 ≤ y ∧ y ≤ 99 then 1900 + y else y

/-- Model of `new Date(y, m, d).getDate()` for `1 ≤ d` overflowing the month
by at most one month: the constructor first applies `MakeFullYear` to the
year argument, then an out-of-range day-of-month rolls into the following
month — the normalization ECMAScript `Date` performs on the argument
`new Date(year, 1, 29)` in `getDaysInYear` (SunClock.tsx line 24). -/
def jsDateGetDate (y : ℤ) (m : ℕ) (d : ℤ) : ℤ :=
  if d ≤ monthLength (makeFullYear y) m then d
  else d - monthLength (makeFullYear y) m

/-- `getDaysInYear` from SunClock.tsx lines 23-25:
`new Date(y, 1, 29).getDate() === 29 ? 366 : 365`. -/
def getDaysInYear (y : ℤ) : ℤ :=
  if jsDateGetDate y 1 29 = 29 then 366 else 365

/-- Day count of February of year `y` under the actual calendar rules; the
claim's reading "the year contains a February 29". -/
def containsFeb29 (y : ℤ) : Prop := monthLength y 1 = 29

/-- The core of `getOrbitAngle` from SunClock.tsx lines 27-36, abstracted over
the day-of-year and days-in-year that the source reads off the current date
(`getDayOfYear date` is in `[1, daysInYear]`):
`daysSinceSolstice = (dayOfYear - 355 + daysInYear) % daysInYear`,
`angle = 90 + daysSinceSolstice / daysInYear * 360`. -/
noncomputable def getOrbitAngle (dayOfYear daysInYear : ℤ) : ℝ :=
  let daysSinceSolstice := jsIntMod (dayOfYear - WINTER_SOLSTICE_DAY + daysInYear) daysInYear
  let fraction := (daysSinceSolstice : ℝ) / (daysInYear : ℝ)
  90 + fraction * 360

/-- The solar `declination` computed in `getSunTimes`, SunClock.tsx line 39:
`23.45 * Math.sin(((360 / 365) * (dayOfYear - 81)) * Math.PI / 180)`. -/
noncomputable def declination (dayOfYear : ℝ) : ℝ :=
  23.45 * Real.sin ((360 / 365 * (dayOfYear - 81)) * π / 180)

/-- `cosOmega` computed in `getSunTimes`, SunClock.tsx lines 40-42:
`-Math.tan(latRad) * Math.tan(declRad)`. -/
noncomputable def cosOmega (dayOfYear latitude : ℝ) : ℝ :=
  -Real.tan (latitude * π / 180) * Real.tan (declination dayOfYear * π / 180)

/-- Result record of `getSunTimes`. -/
structure SolarTimes where
  sunrise : ℝ
  sunset : ℝ


/-- `getSunTimes` from SunClock.tsx lines 38-49. -/
noncomputable def getSunTimes (dayOfYear latitude : ℝ) : SolarTimes :=
  if cosOmega dayOfYear latitude < -1 then ⟨0, 24⟩
  else if cosOmega dayOfYear latitude > 1 then ⟨12, 12⟩
  else
    let omega := Real.arccos (cosOmega dayOfYear latitude) * 180 / π
    ⟨12 - omega / 15, 12 + omega / 15⟩

/-- `Date.UTC(2000, 0, 6, 18, 14, 0)` in milliseconds since the Unix epoch:
the reference new moon of `getMoonPhase`, SunClock.tsx line 85. -/
def refNewMoon : ℝ := 947182440000

/-- `getMoonPhase` from SunClock.tsx lines 83-89, with the `Date` argument
represented by its timestamp `t` in milliseconds since the Unix epoch. -/
noncomputable def getMoonPhase (t : ℝ) : ℝ :=
  let daysSinceRef := (t - refNewMoon) / (1000 * 60 * 60 * 24)
  let phase := jsFmod (jsFmod daysSinceRef SYNODIC_PERIOD + SYNODIC_PERIOD) SYNODIC_PERIOD
  phase / SYNODIC_PERIOD

/-- Result of `moonPhasePath`, SunClock.tsx lines 95-118: the empty string,
the `'full'` sentinel, or the constructed lune path (whose numeric data —
waxing side, centre, radii and terminator sweep flag — we retain; the SVG
textual SVG encoding itself is irrelevant to the computation). -/
inductive MoonPath where
  | empty : MoonPath
  | full : MoonPath
  | lune (waxing : Bool) (cx cy r rx : ℝ) (sweepTerminator : Bool) : MoonPath

/-- `moonPhasePath` from SunClock.tsx lines 95-118. -/
noncomputable def moonPhasePath (cx cy r phase : ℝ) : MoonPath :=
  let p := jsFmod (jsFmod phase 1 + 1) 1
  if p < 0.01 ∨ p > 0.99 then MoonPath.empty
  else if |p - 0.5| < 0.01 then MoonPath.full
  else
    let k := Real.cos (p * 2 * π)
    let rx := |k| * r
    if p < 0.5 then MoonPath.lune true cx cy r rx (if k > 0 then false else true)
    else MoonPath.lune false cx cy r rx (if k > 0 then true else false)

/-- `lerp` from SunClock.tsx lines 120-122. -/
def lerp (a b t : ℝ) : ℝ := a + (b - a) * t

/-- `lerpColor` from SunClock.tsx lines 124-126, on RGB triples. -/
def lerpColor (c1 c2 : ℝ × ℝ × ℝ) (t : ℝ) : ℝ × ℝ × ℝ :=
  (lerp c1.1 c2.1 t, lerp c1.2.1 c2.2.1 t, lerp c1.2.2 c2.2.2 t)

/-- Result of `getSkyColor`: the background colour as the rounded RGB triple
interpolated into the `rgb(...)` string, and the star-field opacity. -/
structure Sky where
  bg : ℤ × ℤ × ℤ
  starOpacity : ℝ


/-- The branch chain of `getSkyColor`, SunClock.tsx lines 128-196, producing
the unrounded RGB triple and the star opacity. -/
noncomputable def getSkyColorRaw (hour sunrise sunset : ℝ) : (ℝ × ℝ × ℝ) × ℝ :=
  let preDawn := sunrise - 1.5
  let dawn := sunrise - 0.5
  let dayStart := sunrise + 0.75
  let dayEnd := sunset - 0.75
  let dusk := sunset + 0.5
  let postDusk := sunset + 1.5
  let black : ℝ × ℝ × ℝ := (0, 0, 0)
  let deepNavy : ℝ × ℝ × ℝ := (8, 12, 30)
  let twilight : ℝ × ℝ × ℝ := (25, 40, 80)
  let dawn_blue : ℝ × ℝ × ℝ := (90, 130, 180)
  let daylight : ℝ × ℝ × ℝ := (210, 220, 235)
  if hour < preDawn then (black, 1)
  else if hour < dawn then
    let t := (hour - preDawn) / (dawn - preDawn)
    (lerpColor black deepNavy t, lerp 1 0.6 t)
  else if hour < sunrise then
    let t := (hour - dawn) / (sunrise - dawn)
    (lerpColor deepNavy twilight t, lerp 0.6 0.2 t)
  else if hour < dayStart then
    let t := (hour - sunrise) / (dayStart - sunrise)
    (if t < 0.5 then lerpColor twilight dawn_blue (t * 2)
     else lerpColor dawn_blue daylight ((t - 0.5) * 2), lerp 0.2 0 t)
  else if hour < dayEnd then (daylight, 0)
  else if hour < sunset then
    let t := (hour - dayEnd) / (sunset - dayEnd)
    (lerpColor daylight dawn_blue t, 0)
  else if hour < dusk then
    let t := (hour - sunset) / (dusk - sunset)
    (if t < 0.5 then lerpColor dawn_blue twilight (t * 2)
     else lerpColor twilight deepNavy ((t - 0.5) * 2), lerp 0 0.6 t)
  else if hour < postDusk then
    let t := (hour - dusk) / (postDusk - dusk)
    (lerpColor deepNavy black t, lerp 0.6 1 t)
  else (black, 1)

/-- `getSkyColor` from SunClock.tsx lines 128-202: the branch chain followed by
`Math.round` on each channel of the returned `rgb(...)` string. -/
noncomputable def getSkyColor (hour sunrise sunset : ℝ) : Sky :=
  let p := getSkyColorRaw hour sunrise sunset
  ⟨(round p.1.1, round p.1.2.1, round p.1.2.2), p.2⟩

/-- The mathematical two-argument arctangent, the value computed by
JavaScript `Math.atan2(y, x)` (exact reals carry no signed zeros). -/
noncomputable def jsAtan2 (y x : ℝ) : ℝ :=
  if 0 < x then Real.arctan (y / x)
  else if x < 0 ∧ 0 ≤ y then Real.arctan (y / x) + π
  else if x < 0 then Real.arctan (y / x) - π
  else if 0 < y then π / 2
  else if y < 0 then -(π / 2)
  else 0

/-- `jd` in `getMoonTimes` (bundled SunClock variant, vite.config.ts lines
80-81): `date.getTime() / 86400000 + 2440587.5`. -/
noncomputable def moonJD (t : ℝ) : ℝ := t / 86400000 + 2440587.5

/-- `T` in `getMoonTimes`: `(jd - 2451545.0) / 36525`. -/
noncomputable def moonT (t : ℝ) : ℝ := (moonJD t - 2451545.0) / 36525

/-- `L0` in `getMoonTimes`: `(218.316 + 481267.8813 * T) % 360`. -/
noncomputable def moonL0 (t : ℝ) : ℝ := jsFmod (218.316 + 481267.8813 * moonT t) 360

/-- `M` in `getMoonTimes`: `(134.963 + 477198.8676 * T) % 360`. -/
noncomputable def moonM (t : ℝ) : ℝ := jsFmod (134.963 + 477198.8676 * moonT t) 360

/-- `F` in `getMoonTimes`: `(93.272 + 483202.0175 * T) % 360`. -/
noncomputable def moonF (t : ℝ) : ℝ := jsFmod (93.272 + 483202.0175 * moonT t) 360

/-- `lambda` in `getMoonTimes`: ecliptic longitude `L0 + 6.289 * sin(M·toRad)`. -/
noncomputable def moonLambda (t : ℝ) : ℝ :=
  moonL0 t + 6.289 * Real.sin (moonM t * (π / 180))

/-- `beta` in `getMoonTimes`: ecliptic latitude `5.128 * sin(F·toRad)`. -/
noncomputable def moonBeta (t : ℝ) : ℝ := 5.128 * Real.sin (moonF t * (π / 180))

/-- `epsilon` in `getMoonTimes`: obliquity
`23.439 - 0.00000036 * (jd - 2451545.0)`. -/
noncomputable def moonEpsilon (t : ℝ) : ℝ :=
  23.439 - 0.00000036 * (moonJD t - 2451545.0)

/-- `sinDec` in `getMoonTimes`:
`sin(beta·toRad)*cos(eps·toRad) + cos(beta·toRad)*sin(eps·toRad)*sin(lambda·toRad)`. -/
noncomputable def moonSinDec (t : ℝ) : ℝ :=
  Real.sin (moonBeta t * (π / 180)) * Real.cos (moonEpsilon t * (π / 180)) +
    Real.cos (moonBeta t * (π / 180)) * Real.sin (moonEpsilon t * (π / 180)) *
      Real.sin (moonLambda t * (π / 180))

/-- `dec` in `getMoonTimes`: `Math.asin(sinDec)`. -/
noncomputable def moonDec (t : ℝ) : ℝ := Real.arcsin (moonSinDec t)

/-- `ra` in `getMoonTimes`: `Math.atan2(y, x)` with
`y = sin(lambda·toRad)*cos(eps·toRad) - tan(beta·toRad)*sin(eps·toRad)` and
`x = cos(lambda·toRad)`. -/
noncomputable def moonRA (t : ℝ) : ℝ :=
  jsAtan2
    (Real.sin (moonLambda t * (π / 180)) * Real.cos (moonEpsilon t * (π / 180)) -
      Real.tan (moonBeta t * (π / 180)) * Real.sin (moonEpsilon t * (π / 180)))
    (Real.cos (moonLambda t * (π / 180)))

/-- `h0` in `getMoonTimes`: the rise/set altitude `0.125 * toRad`. -/
noncomputable def moonH0 : ℝ := 0.125 * (π / 180)

/-- `cosH` in `getMoonTimes`:
`(sin(h0) - sin(latRad)*sin(dec)) / (cos(latRad)*cos(dec))`. -/
noncomputable def moonCosH (t latitude : ℝ) : ℝ :=
  (Real.sin moonH0 - Real.sin (latitude * (π / 180)) * Real.sin (moonDec t)) /
    (Real.cos (latitude * (π / 180)) * Real.cos (moonDec t))

/-- Result record of `getMoonTimes`. -/
structure MoonTimes where
  moonrise : Option ℝ
  moonset : Option ℝ
  moonriseDir : String
  moonsetDir : String

/-- `azToDir` in `getMoonTimes`: bucket an azimuth into 8 compass points. -/
noncomputable def azToDir (az : ℝ) : String :=
  if az < 22.5 ∨ 337.5 ≤ az then "N"
  else if az < 67.5 then "NE"
  else if az < 112.5 then "E"
  else if az < 157.5 then "SE"
  else if az < 202.5 then "S"
  else if az < 247.5 then "SW"
  else if az < 292.5 then "W"
  else "NW"

/-- `getMoonTimes` from the bundled SunClock variant (vite.config.ts lines
71-160), with the `Date` argument represented by its timestamp `t` in
milliseconds since the Unix epoch. -/
noncomputable def getMoonTimes (t latitude longitude : ℝ) : MoonTimes :=
  if moonCosH t latitude < -1 then ⟨some 0, none, "", ""⟩
  else if moonCosH t latitude > 1 then ⟨none, none, "", ""⟩
  else
    let H := Real.arccos (moonCosH t latitude)
    let gmst0 := jsFmod (280.46061837 + 360.98564736629 * (moonJD t - 2451545.0)) 360
    let transit := jsFmod (moonRA t * (180 / π) - gmst0 - longitude + 720) 360 / 360 * 24
    let rise := jsFmod (jsFmod (transit - H * (180 / π) / 15) 24 + 24) 24
    let set := jsFmod (jsFmod (transit + H * (180 / π) / 15) 24 + 24) 24
    let cosAz := Real.sin (moonDec t) / Real.cos (latitude * (π / 180))
    let azRise := Real.arccos cosAz * (180 / π)
    let azSet := 360 - azRise
    ⟨some rise, some set, azToDir azRise, azToDir azSet⟩

/-- A concrete timestamp (milliseconds since the Unix epoch, ≈ 2000-01-18)
chosen so that `moonT` of it equals `231.684 / 481267.8813`, which makes the
moon's mean longitude `moonL0` evaluate to exactly 90°; used to exhibit
concrete circumpolar/never-rises inputs of `getMoonTimes`. -/
noncomputable def tWitness : ℝ := (10957.5 + 36525 * (231.684 / 481267.8813)) * 86400000

/-! ### Helper lemmas -/

theorem jsTrunc_eq_floor {x : ℝ} (h : 0 ≤ x) : jsTrunc x = ⌊x⌋ := if_pos h

theorem jsTrunc_eq_ceil {x : ℝ} (h : ¬ 0 ≤ x) : jsTrunc x = ⌈x⌉ := if_neg h

theorem jsTrunc_eq_of_nonneg (n : ℤ) {x : ℝ} (hn : 0 ≤ n) (h1 : (n : ℝ) ≤ x)
    (h2 : x < n + 1) : jsTrunc x = n := by
  have hx : 0 ≤ x := le_trans (by exact_mod_cast hn) h1
  rw [jsTrunc_eq_floor hx]
  exact Int.floor_eq_iff.mpr ⟨h1, h2⟩

theorem jsTrunc_eq_of_nonpos (n : ℤ) {x : ℝ} (hn : n ≤ 0) (h1 : (n : ℝ) - 1 < x)
    (h2 : x ≤ n) : jsTrunc x = n := by
  by_cases hx : 0 ≤ x
  · have hn0 : (0 : ℝ) ≤ (n : ℝ) := le_trans hx h2
    have hneq : n = 0 := le_antisymm hn (by exact_mod_cast hn0)
    subst hneq
    have hx0 : x = 0 := le_antisymm (by exact_mod_cast h2) hx
    rw [jsTrunc_eq_floor hx, hx0]
    simp
  · rw [jsTrunc_eq_ceil hx]
    exact Int.ceil_eq_iff.mpr ⟨h1, h2⟩

theorem jsFmod_bounds_of_nonneg {a b : ℝ} (hb : 0 < b) (ha : 0 ≤ a) :
    0 ≤ jsFmod a b ∧ jsFmod a b < b := by
  have hq : 0 ≤ a / b := div_nonneg ha hb.le
  have hba : b * (a / b) = a := by field_simp
  have h1 : (⌊a / b⌋ : ℝ) ≤ a / b := Int.floor_le _
  have h2 : a / b < ⌊a / b⌋ + 1 := Int.lt_floor_add_one _
  have k1 : b * (⌊a / b⌋ : ℝ) ≤ b * (a / b) := mul_le_mul_of_nonneg_left h1 hb.le
  have k2 : b * (a / b) < b * ((⌊a / b⌋ : ℝ) + 1) := (mul_lt_mul_left hb).mpr h2
  unfold jsFmod
  rw [jsTrunc_eq_floor hq]
  constructor
  · nlinarith
  · nlinarith

theorem jsFmod_bounds (a : ℝ) {b : ℝ} (hb : 0 < b) : -b < jsFmod a b ∧ jsFmod a b ≤ b := by
  by_cases hq : 0 ≤ a / b
  · have hba : b * (a / b) = a := by field_simp
    have ha : 0 ≤ a := by nlinarith [mul_nonneg hb.le hq]
    have h := jsFmod_bounds_of_nonneg hb ha
    exact ⟨lt_of_lt_of_le (by linarith) h.1, h.2.le⟩
  · push_neg at hq
    have hba : b * (a / b) = a := by field_simp
    have h1 : (a / b : ℝ) ≤ ⌈a / b⌉ := Int.le_ceil _
    have h2 : (⌈a / b⌉ : ℝ) < a / b + 1 := Int.ceil_lt_add_one _
    have k1 : b * (a / b) ≤ b * (⌈a / b⌉ : ℝ) := mul_le_mul_of_nonneg_left h1 hb.le
    have k2 : b * (⌈a / b⌉ : ℝ) < b * (a / b + 1) := (mul_lt_mul_left hb).mpr h2
    unfold jsFmod
    rw [jsTrunc_eq_ceil (not_le.mpr hq)]
    constructor
    · nlinarith
    · nlinarith

theorem abs_tan_eq_tan_abs {x : ℝ} (h : |x| < π / 2) :
    |Real.tan x| = Real.tan |x| := by
  rcases le_or_lt 0 x with hx | hx
  · rw [abs_of_nonneg hx] at h ⊢
    rw [abs_of_nonneg (Real.tan_nonneg_of_nonneg_of_le_pi_div_two hx h.le)]
  · rw [abs_of_neg hx] at h ⊢
    rw [abs_of_neg (Real.tan_neg_of_neg_of_pi_div_two_lt hx (by linarith)),
      ← Real.tan_neg]

theorem tan_mul_tan_lt_one {a b : ℝ} (ha : 0 ≤ a) (hb : 0 ≤ b)
    (hab : a + b < π / 2) : Real.tan a * Real.tan b < 1 := by
  have hπ := Real.pi_div_two_pos
  have hca : 0 < Real.cos a := Real.cos_pos_of_mem_Ioo ⟨by linarith, by linarith⟩
  have hcb : 0 < Real.cos b := Real.cos_pos_of_mem_Ioo ⟨by linarith, by linarith⟩
  have hcab : 0 < Real.cos (a + b) :=
    Real.cos_pos_of_mem_Ioo ⟨by linarith, hab⟩
  rw [Real.cos_add] at hcab
  rw [Real.tan_eq_sin_div_cos, Real.tan_eq_sin_div_cos, div_mul_div_comm,
    div_lt_one (by positivity)]
  linarith

theorem one_lt_tan_mul_tan {a b : ℝ} (ha0 : 0 < a) (hb0 : 0 < b)
    (ha : a < π / 2) (hb : b < π / 2) (hab : π / 2 < a + b) :
    1 < Real.tan a * Real.tan b := by
  have hπ := Real.pi_div_two_pos
  have hca : 0 < Real.cos a := Real.cos_pos_of_mem_Ioo ⟨by linarith, ha⟩
  have hcb : 0 < Real.cos b := Real.cos_pos_of_mem_Ioo ⟨by linarith, hb⟩
  have hcab : Real.cos (a + b) < 0 :=
    Real.cos_neg_of_pi_div_two_lt_of_lt hab (by linarith)
  rw [Real.cos_add] at hcab
  rw [Real.tan_eq_sin_div_cos, Real.tan_eq_sin_div_cos, div_mul_div_comm,
    one_lt_div (by positivity)]
  linarith

theorem abs_declination_le (d : ℝ) : |declination d| ≤ 23.45 := by
  unfold declination
  rw [abs_mul, abs_of_pos (by norm_num : (0 : ℝ) < 23.45)]
  nlinarith [Real.abs_sin_le_one ((360 / 365 * (d - 81)) * π / 180),
    abs_nonneg (Real.sin ((360 / 365 * (d - 81)) * π / 180))]

theorem abs_cosOmega_lt_one (d lat : ℝ) (h1 : -66.5 < lat) (h2 : lat < 66.5) :
    |cosOmega d lat| < 1 := by
  have hπ := Real.pi_pos
  have habs_lat : |lat| < 66.5 := abs_lt.mpr ⟨h1, h2⟩
  have hdecl := abs_declination_le d
  have e1 : |lat * π / 180| = |lat| * π / 180 := by
    rw [abs_div, abs_mul, abs_of_pos hπ]
    norm_num
  have e2 : |declination d * π / 180| = |declination d| * π / 180 := by
    rw [abs_div, abs_mul, abs_of_pos hπ]
    norm_num
  have hX : |lat * π / 180| < 66.5 * π / 180 := by rw [e1]; nlinarith
  have hY : |declination d * π / 180| ≤ 23.45 * π / 180 := by
    rw [e2]; nlinarith [abs_nonneg (declination d)]
  have hA2 : 66.5 * π / 180 < π / 2 := by nlinarith
  have hB2 : 23.45 * π / 180 < π / 2 := by nlinarith
  have hXhalf : |lat * π / 180| < π / 2 := lt_trans hX hA2
  have hYhalf : |declination d * π / 180| < π / 2 := lt_of_le_of_lt hY hB2
  unfold cosOmega
  rw [abs_mul, abs_neg, abs_tan_eq_tan_abs hXhalf, abs_tan_eq_tan_abs hYhalf]
  have hmono1 : Real.tan |lat * π / 180| < Real.tan (66.5 * π / 180) :=
    Real.tan_lt_tan_of_nonneg_of_lt_pi_div_two (abs_nonneg _) hA2 hX
  have hmono2 : Real.tan |declination d * π / 180| ≤ Real.tan (23.45 * π / 180) := by
    rcases eq_or_lt_of_le hY with h | h
    · rw [h]
    · exact (Real.tan_lt_tan_of_nonneg_of_lt_pi_div_two (abs_nonneg _) hB2 h).le
  have htanB_pos : 0 < Real.tan (23.45 * π / 180) :=
    Real.tan_pos_of_pos_of_lt_pi_div_two (by nlinarith) hB2
  have htanX_nonneg : 0 ≤ Real.tan |lat * π / 180| :=
    Real.tan_nonneg_of_nonneg_of_le_pi_div_two (abs_nonneg _) hXhalf.le
  calc Real.tan |lat * π / 180| * Real.tan |declination d * π / 180|
      ≤ Real.tan |lat * π / 180| * Real.tan (23.45 * π / 180) :=
        mul_le_mul_of_nonneg_left hmono2 htanX_nonneg
    _ < Real.tan (66.5 * π / 180) * Real.tan (23.45 * π / 180) :=
        mul_lt_mul_of_pos_right hmono1 htanB_pos
    _ < 1 := tan_mul_tan_lt_one (by positivity) (by positivity) (by nlinarith)

theorem getSunTimes_eq_allday {d lat : ℝ} (h : cosOmega d lat < -1) :
    getSunTimes d lat = ⟨0, 24⟩ := by
  unfold getSunTimes
  rw [if_pos h]

theorem getSunTimes_eq_allnight {d lat : ℝ} (h : 1 < cosOmega d lat) :
    getSunTimes d lat = ⟨12, 12⟩ := by
  unfold getSunTimes
  rw [if_neg (by push_neg; linarith), if_pos h]

theorem getSunTimes_eq_arccos {d lat : ℝ} (h : |cosOmega d lat| < 1) :
    getSunTimes d lat =
      ⟨12 - Real.arccos (cosOmega d lat) * 180 / π / 15,
       12 + Real.arccos (cosOmega d lat) * 180 / π / 15⟩ := by
  have h1 := (abs_lt.mp h).1
  have h2 := (abs_lt.mp h).2
  unfold getSunTimes
  rw [if_neg (by push_neg; linarith), if_neg (by push_neg; linarith)]

/-! ### C7: leap-year detection in `getDaysInYear` -/

theorem isGregorianLeap_makeFullYear {y : ℤ} (hy : y ≠ 0) :
    isGregorianLeap (makeFullYear y) = isGregorianLeap y := by
  unfold makeFullYear
  split_ifs with h
  · obtain ⟨h0, h99⟩ := h
    have h1 : 1 ≤ y := by omega
    unfold isGregorianLeap
    rw [show (1900 + y) % 4 = y % 4 by omega,
      show (1900 + y) % 100 = y % 100 by omega,
      show (1900 + y) % 400 = 300 + y by omega,
      show y % 400 = y by omega]
    rw [show (300 + y == (0 : ℤ)) = false by
        simp only [beq_eq_false_iff_ne]; omega,
      show (y == (0 : ℤ)) = false by
        simp only [beq_eq_false_iff_ne]; omega]
  · rfl

theorem getDaysInYear_eq (y : ℤ) :
    getDaysInYear y = if isGregorianLeap (makeFullYear y) then 366 else 365 := by
  unfold getDaysInYear jsDateGetDate monthLength
  cases h : isGregorianLeap (makeFullYear y) <;> simp [h]

theorem containsFeb29_iff (y : ℤ) :
    containsFeb29 y ↔ isGregorianLeap y = true := by
  unfold containsFeb29 monthLength
  cases h : isGregorianLeap y <;> simp [h]

/-- **C7, counterexample.** The original claim fails at a date whose full
year is 0: year 0 contains a February 29 (it is leap by the actual calendar
rules), yet `getDaysInYear` returns 365, because ECMAScript's two-digit-year
rule makes `new Date(0, 1, 29)` probe February of 1900 (not leap), which
rolls over to March 1. -/
theorem getDaysInYear_year_zero : containsFeb29 0 ∧ getDaysInYear 0 = 365 := by
  constructor
  · unfold containsFeb29 monthLength
    decide
  · unfold getDaysInYear jsDateGetDate monthLength makeFullYear
    decide

/-- **C7, amended.** For every date whose full year is not 0, `getDaysInYear`
returns 366 exactly when the year contains a February 29 (by the actual
calendar rules modelled in `monthLength`), and 365 otherwise; the concrete
values at 2024 and 2023 show the result is not a hardcoded 365.  Year 0 is
the single exception: the `Date` constructor's two-digit-year remapping sends
the probe `new Date(0, 1, 29)` to 1900, whose leapness differs from year 0's
(for years 1–99 the remapped year 1900+y has the same leapness as y, and
other years are not remapped at all). -/
theorem getDaysInYear_leap_correct :
    (∀ y : ℤ, y ≠ 0 → (getDaysInYear y = 366 ↔ containsFeb29 y) ∧
      (¬ containsFeb29 y → getDaysInYear y = 365)) ∧
    getDaysInYear 2024 = 366 ∧ getDaysInYear 2023 = 365 := by
  refine ⟨fun y hy => ?_, by decide, by decide⟩
  rw [getDaysInYear_eq y, isGregorianLeap_makeFullYear hy, containsFeb29_iff y]
  cases h : isGregorianLeap y
  · rw [if_neg (by simp [h])]
    refine ⟨⟨fun hh => by norm_num at hh, fun hh => by simp [h] at hh⟩,
      fun _ => rfl⟩
  · rw [if_pos (by simp [h])]
    exact ⟨⟨fun _ => rfl, fun _ => rfl⟩, fun hh => absurd rfl hh⟩

/-- Witness for **C7 amended** at the non-leap year 2023. -/
theorem getDaysInYear_leap_correct_witness : getDaysInYear 2023 = 365 :=
  (getDaysInYear_leap_correct.1 2023 (by norm_num)).2
    (by rw [containsFeb29_iff]; decide)

/-! ### C8: orbit angle at the winter solstice -/

/-- **C8.** For day-of-year 355 in a 365-day year, `getOrbitAngle` returns the
solstice reference angle of 90 degrees exactly. -/
theorem getOrbitAngle_at_solstice : getOrbitAngle 355 365 = 90 := by
  unfold getOrbitAngle jsIntMod WINTER_SOLSTICE_DAY
  norm_num

/-! ### C4: range of the orbit angle -/

/-- **C4, counterexample.** The claim that `getOrbitAngle` always lies in
`[0, 360)` is false: at day-of-year 300 of a 365-day year the returned angle
is `90 + 310/365·360 ≈ 395.75 ≥ 360`. -/
theorem getOrbitAngle_not_lt_360 : ¬ getOrbitAngle 300 365 < 360 := by
  unfold getOrbitAngle jsIntMod WINTER_SOLSTICE_DAY
  norm_num

/-- **C4, amended.** For every day-of-year in `[1, daysInYear]` with
`daysInYear ≥ 365`, `getOrbitAngle` lies in `[90, 450)` (the code adds the
90° solstice reference offset to a fraction of a full turn and performs no
reduction modulo 360). -/
theorem getOrbitAngle_range (d diy : ℤ) (h1 : 1 ≤ d) (h2 : d ≤ diy)
    (h3 : 365 ≤ diy) : 90 ≤ getOrbitAngle d diy ∧ getOrbitAngle d diy < 450 := by
  have hx : 0 ≤ d - WINTER_SOLSTICE_DAY + diy := by
    unfold WINTER_SOLSTICE_DAY; omega
  have hb : (0 : ℤ) < diy := by omega
  have m1 : 0 ≤ (d - WINTER_SOLSTICE_DAY + diy) % diy := Int.emod_nonneg _ (by omega)
  have m2 : (d - WINTER_SOLSTICE_DAY + diy) % diy < diy := Int.emod_lt_of_pos _ hb
  have hbR : (0 : ℝ) < (diy : ℝ) := by exact_mod_cast hb
  unfold getOrbitAngle jsIntMod
  rw [if_pos hx]
  have hf0 : (0 : ℝ) ≤ (((d - WINTER_SOLSTICE_DAY + diy) % diy : ℤ) : ℝ) / (diy : ℝ) :=
    div_nonneg (by exact_mod_cast m1) hbR.le
  have hf1 : (((d - WINTER_SOLSTICE_DAY + diy) % diy : ℤ) : ℝ) / (diy : ℝ) < 1 :=
    (div_lt_one hbR).mpr (by exact_mod_cast m2)
  constructor
  · nlinarith
  · nlinarith

/-- Witness for **C4 amended** at day-of-year 1 of a 365-day year. -/
theorem getOrbitAngle_range_witness :
    90 ≤ getOrbitAngle 1 365 ∧ getOrbitAngle 1 365 < 450 :=
  getOrbitAngle_range 1 365 (by norm_num) (by norm_num) (by norm_num)

/-! ### C1: non-polar latitudes give an ordered day window inside [0, 24] -/

/-- **C1.** For every latitude strictly between -66.5 and 66.5 degrees and
every day-of-year, `getSunTimes` returns `sunrise < sunset` with both values
in `[0, 24]`: at such latitudes `|cosOmega| < 1`, so the `arccos` branch is
taken and the hour angle lies strictly between 0° and 180°. -/
theorem getSunTimes_nonpolar (d lat : ℝ) (h1 : -66.5 < lat) (h2 : lat < 66.5) :
    (getSunTimes d lat).sunrise < (getSunTimes d lat).sunset ∧
    0 ≤ (getSunTimes d lat).sunrise ∧ (getSunTimes d lat).sunrise ≤ 24 ∧
    0 ≤ (getSunTimes d lat).sunset ∧ (getSunTimes d lat).sunset ≤ 24 := by
  have habs := abs_cosOmega_lt_one d lat h1 h2
  have hlt : cosOmega d lat < 1 := (abs_lt.mp habs).2
  have hgt : -1 < cosOmega d lat := (abs_lt.mp habs).1
  have hπ := Real.pi_pos
  have hacos_pos : 0 < Real.arccos (cosOmega d lat) := Real.arccos_pos.mpr hlt
  have hacos_lt : Real.arccos (cosOmega d lat) < π := by
    rcases lt_or_eq_of_le (Real.arccos_le_pi (cosOmega d lat)) with h | h
    · exact h
    · exact absurd (Real.arccos_eq_pi.mp h) (by linarith)
  rw [getSunTimes_eq_arccos habs]
  have hω_pos : 0 < Real.arccos (cosOmega d lat) * 180 / π :=
    div_pos (by nlinarith) hπ
  have hω_lt : Real.arccos (cosOmega d lat) * 180 / π < 180 := by
    rw [div_lt_iff hπ]
    nlinarith
  refine ⟨by dsimp; linarith, by dsimp; linarith, by dsimp; linarith,
    by dsimp; linarith, by dsimp; linarith⟩

/-- Witness for **C1** at day-of-year 81, latitude 0. -/
theorem getSunTimes_nonpolar_witness :
    (getSunTimes 81 0).sunrise < (getSunTimes 81 0).sunset ∧
    0 ≤ (getSunTimes 81 0).sunrise ∧ (getSunTimes 81 0).sunrise ≤ 24 ∧
    0 ≤ (getSunTimes 81 0).sunset ∧ (getSunTimes 81 0).sunset ≤ 24 :=
  getSunTimes_nonpolar 81 0 (by norm_num) (by norm_num)

/-! ### C2: polar sentinel branches -/

theorem declination_172_bounds : 16 < declination 172 ∧ declination 172 ≤ 23.45 := by
  have hπ := Real.pi_pos
  have hθ : (360 / 365 * ((172 : ℝ) - 81)) * π / 180 = 182 / 365 * π := by
    ring
  constructor
  · unfold declination
    rw [hθ]
    have hmem1 : π / 4 ∈ Set.Icc (-(π / 2)) (π / 2) := by
      constructor <;> nlinarith
    have hmem2 : 182 / 365 * π ∈ Set.Icc (-(π / 2)) (π / 2) := by
      constructor <;> nlinarith
    have hmono : Real.sin (π / 4) ≤ Real.sin (182 / 365 * π) :=
      Real.strictMonoOn_sin.monotoneOn hmem1 hmem2 (by nlinarith)
    rw [Real.sin_pi_div_four] at hmono
    have hsqrt2 : (1.4 : ℝ) < Real.sqrt 2 := by
      nlinarith [Real.sq_sqrt (by norm_num : (0 : ℝ) ≤ 2), Real.sqrt_nonneg 2]
    nlinarith
  · unfold declination
    nlinarith [Real.sin_le_one ((360 / 365 * ((172 : ℝ) - 81)) * π / 180)]

theorem one_lt_tan_prod_near_pole (lat : ℝ) (h1 : 89.9 ≤ lat) (h2 : lat < 90) :
    1 < Real.tan (lat * π / 180) * Real.tan (declination 172 * π / 180) := by
  have hπ := Real.pi_pos
  have hd := declination_172_bounds
  apply one_lt_tan_mul_tan
  · nlinarith
  · nlinarith [hd.1]
  · nlinarith
  · nlinarith [hd.2]
  · nlinarith [hd.1]

theorem cosOmega_lt_neg_one_near_pole {lat : ℝ} (h1 : 89.9 ≤ lat) (h2 : lat < 90) :
    cosOmega 172 lat < -1 := by
  have h := one_lt_tan_prod_near_pole lat h1 h2
  unfold cosOmega
  linarith

theorem one_lt_cosOmega_near_south_pole {lat : ℝ} (h1 : -90 < lat)
    (h2 : lat ≤ -89.9) : 1 < cosOmega 172 lat := by
  have h := one_lt_tan_prod_near_pole (-lat) (by linarith) (by linarith)
  unfold cosOmega
  have e : lat * π / 180 = -(-lat * π / 180) := by ring
  rw [e, Real.tan_neg]
  linarith

/-- **C2.** The sentinel branches of `getSunTimes`: whenever
`cosOmega = -tan(lat)·tan(declination) < -1` the perpetual-daylight sentinel
`{sunrise 0, sunset 24}` is returned, and whenever `cosOmega > 1` the
perpetual-darkness sentinel `{sunrise 12, sunset 12}` is returned; in
particular every latitude within 0.1° below the North Pole yields `{0, 24}`
at the northern summer solstice (day 172) and every latitude within 0.1°
above the South Pole yields `{12, 12}` there, never an undefined value.
(Exact real semantics cannot evaluate `tan` at the poles themselves: the
running program works on IEEE doubles, whose rounded `±90·π/180` lies
strictly inside the pole, i.e. inside the ranges proved here.) -/
theorem getSunTimes_sentinels :
    (∀ d lat : ℝ, cosOmega d lat < -1 → getSunTimes d lat = ⟨0, 24⟩) ∧
    (∀ d lat : ℝ, 1 < cosOmega d lat → getSunTimes d lat = ⟨12, 12⟩) ∧
    (∀ lat : ℝ, 89.9 ≤ lat → lat < 90 → getSunTimes 172 lat = ⟨0, 24⟩) ∧
    (∀ lat : ℝ, -90 < lat → lat ≤ -89.9 → getSunTimes 172 lat = ⟨12, 12⟩) := by
  refine ⟨fun d lat h => getSunTimes_eq_allday h,
    fun d lat h => getSunTimes_eq_allnight h,
    fun lat h1 h2 => getSunTimes_eq_allday (cosOmega_lt_neg_one_near_pole h1 h2),
    fun lat h1 h2 => getSunTimes_eq_allnight (one_lt_cosOmega_near_south_pole h1 h2)⟩

/-- Witness for **C2**: all four conjuncts applied at day 172 and latitudes
±89.95. -/
theorem getSunTimes_sentinels_witness :
    getSunTimes 172 89.95 = ⟨0, 24⟩ ∧ getSunTimes 172 (-89.95) = ⟨12, 12⟩ := by
  have hneg : cosOmega 172 89.95 < -1 :=
    cosOmega_lt_neg_one_near_pole (by norm_num) (by norm_num)
  have hpos : 1 < cosOmega 172 (-89.95) :=
    one_lt_cosOmega_near_south_pole (by norm_num) (by norm_num)
  exact ⟨getSunTimes_sentinels.1 172 89.95 hneg,
    getSunTimes_sentinels.2.1 172 (-89.95) hpos⟩

/-! ### C10: the daylight window is centred on noon -/

/-- **C10.** For every day-of-year and latitude, the sunrise and sunset
returned by `getSunTimes` sum to 24: all three branches (perpetual daylight,
perpetual darkness, and the `arccos` branch) produce a window centred on
hour 12. -/
theorem getSunTimes_sum_24 (d lat : ℝ) :
    (getSunTimes d lat).sunrise + (getSunTimes d lat).sunset = 24 := by
  unfold getSunTimes
  split_ifs <;> simp <;> ring

/-! ### C3: moon phase lies in [0, 1) -/

theorem SYNODIC_PERIOD_pos : (0 : ℝ) < SYNODIC_PERIOD := by
  norm_num [SYNODIC_PERIOD]

theorem jsFmod_zero_left {b : ℝ} : jsFmod 0 b = 0 := by
  unfold jsFmod jsTrunc
  simp

theorem jsFmod_self {b : ℝ} (hb : b ≠ 0) : jsFmod b b = 0 := by
  unfold jsFmod
  rw [div_self hb, jsTrunc_eq_of_nonneg 1 (by norm_num) (by norm_num) (by norm_num)]
  push_cast
  ring

theorem getMoonPhase_mem (t : ℝ) : 0 ≤ getMoonPhase t ∧ getMoonPhase t < 1 := by
  have hP := SYNODIC_PERIOD_pos
  simp only [getMoonPhase]
  have h1 := jsFmod_bounds ((t - refNewMoon) / (1000 * 60 * 60 * 24)) hP
  have h2 : 0 ≤ jsFmod ((t - refNewMoon) / (1000 * 60 * 60 * 24)) SYNODIC_PERIOD +
      SYNODIC_PERIOD := by linarith [h1.1]
  have h3 := jsFmod_bounds_of_nonneg hP h2
  exact ⟨div_nonneg h3.1 hP.le, (div_lt_one hP).mpr h3.2⟩

theorem getMoonPhase_at_ref : getMoonPhase refNewMoon = 0 := by
  have hP := SYNODIC_PERIOD_pos
  simp only [getMoonPhase]
  rw [sub_self, zero_div, jsFmod_zero_left, zero_add, jsFmod_self hP.ne',
    zero_div]

theorem jsFmod_half_period : jsFmod (SYNODIC_PERIOD / 2) SYNODIC_PERIOD =
    SYNODIC_PERIOD / 2 := by
  have hP := SYNODIC_PERIOD_pos
  unfold jsFmod
  have hq : SYNODIC_PERIOD / 2 / SYNODIC_PERIOD = 1 / 2 := by
    field_simp
    ring
  rw [hq, jsTrunc_eq_of_nonneg 0 le_rfl (by norm_num) (by norm_num)]
  push_cast
  ring

theorem getMoonPhase_at_full :
    getMoonPhase (refNewMoon + SYNODIC_PERIOD / 2 * (1000 * 60 * 60 * 24)) =
      1 / 2 := by
  have hP := SYNODIC_PERIOD_pos
  simp only [getMoonPhase]
  have hd : (refNewMoon + SYNODIC_PERIOD / 2 * (1000 * 60 * 60 * 24) - refNewMoon) /
      (1000 * 60 * 60 * 24) = SYNODIC_PERIOD / 2 := by
    field_simp
    ring
  rw [hd, jsFmod_half_period]
  unfold jsFmod
  have hq : (SYNODIC_PERIOD / 2 + SYNODIC_PERIOD) / SYNODIC_PERIOD = 3 / 2 := by
    field_simp
    ring
  rw [hq, jsTrunc_eq_of_nonneg 1 (by norm_num) (by norm_num) (by norm_num)]
  push_cast
  field_simp
  ring

theorem getMoonPhase_at_full_before_ref :
    getMoonPhase (refNewMoon - SYNODIC_PERIOD / 2 * (1000 * 60 * 60 * 24)) =
      1 / 2 := by
  have hP := SYNODIC_PERIOD_pos
  simp only [getMoonPhase]
  have hd : (refNewMoon - SYNODIC_PERIOD / 2 * (1000 * 60 * 60 * 24) - refNewMoon) /
      (1000 * 60 * 60 * 24) = -(SYNODIC_PERIOD / 2) := by
    field_simp
    ring
  rw [hd]
  have h1 : jsFmod (-(SYNODIC_PERIOD / 2)) SYNODIC_PERIOD = -(SYNODIC_PERIOD / 2) := by
    unfold jsFmod
    have hq : -(SYNODIC_PERIOD / 2) / SYNODIC_PERIOD = -(1 / 2) := by
      field_simp
      ring
    rw [hq, jsTrunc_eq_of_nonpos 0 le_rfl (by norm_num) (by norm_num)]
    push_cast
    ring
  rw [h1, show -(SYNODIC_PERIOD / 2) + SYNODIC_PERIOD = SYNODIC_PERIOD / 2 by ring,
    jsFmod_half_period]
  field_simp
  ring

/-- **C3.** `getMoonPhase` always lies in `[0, 1)` — the double-mod
`((d % P) + P) % P` makes the result nonnegative for every timestamp,
including those before the 2000-01-06T18:14Z reference new moon — and it is
`0` at the reference new moon and `1/2` at full moons (half a synodic period
after, and also half a synodic period before, the reference). -/
theorem getMoonPhase_range :
    (∀ t : ℝ, 0 ≤ getMoonPhase t ∧ getMoonPhase t < 1) ∧
    getMoonPhase refNewMoon = 0 ∧
    getMoonPhase (refNewMoon + SYNODIC_PERIOD / 2 * (1000 * 60 * 60 * 24)) = 1 / 2 ∧
    getMoonPhase (refNewMoon - SYNODIC_PERIOD / 2 * (1000 * 60 * 60 * 24)) = 1 / 2 :=
  ⟨getMoonPhase_mem, getMoonPhase_at_ref, getMoonPhase_at_full,
    getMoonPhase_at_full_before_ref⟩

/-! ### C5: full daylight in `getSkyColor` -/

theorem getSkyColorRaw_daylight (hour sunrise sunset : ℝ)
    (hl : sunrise + 0.75 ≤ hour) (hr : hour < sunset - 0.75) :
    getSkyColorRaw hour sunrise sunset = ((210, 220, 235), 0) := by
  simp only [getSkyColorRaw]
  rw [if_neg (not_lt.mpr (by linarith)), if_neg (not_lt.mpr (by linarith)),
    if_neg (not_lt.mpr (by linarith)), if_neg (not_lt.mpr (by linarith)),
    if_pos hr]

/-- **C5.** For sunrise < sunset, at every hour from `sunrise + 2.75` up to
the start of the evening segment (`sunset - 0.75`), `getSkyColor` returns the
full-daylight anchor `rgb(210,220,235)` with star-field opacity 0 (the code
enters the constant daylight segment at `sunrise + 0.75`, so the whole
claimed interval lies inside it). -/
theorem getSkyColor_full_daylight (hour sunrise sunset : ℝ)
    (hss : sunrise < sunset) (h1 : sunrise + 2.75 ≤ hour)
    (h2 : hour < sunset - 0.75) :
    getSkyColor hour sunrise sunset = ⟨(210, 220, 235), 0⟩ := by
  have hraw := getSkyColorRaw_daylight hour sunrise sunset (by linarith) h2
  unfold getSkyColor
  rw [hraw]
  have h210 : round (210 : ℝ) = 210 := by
    rw [show (210 : ℝ) = ((210 : ℤ) : ℝ) by norm_num]
    exact round_intCast 210
  have h220 : round (220 : ℝ) = 220 := by
    rw [show (220 : ℝ) = ((220 : ℤ) : ℝ) by norm_num]
    exact round_intCast 220
  have h235 : round (235 : ℝ) = 235 := by
    rw [show (235 : ℝ) = ((235 : ℤ) : ℝ) by norm_num]
    exact round_intCast 235
  dsimp
  rw [h210, h220, h235]

/-- Witness for **C5** at hour 13 with sunrise 6, sunset 18. -/
theorem getSkyColor_full_daylight_witness :
    getSkyColor 13 6 18 = ⟨(210, 220, 235), 0⟩ :=
  getSkyColor_full_daylight 13 6 18 (by norm_num) (by norm_num) (by norm_num)

/-! ### C6: sentinel outputs of `moonPhasePath` -/

theorem jsFmod_norm_of_Ico {p : ℝ} (h0 : 0 ≤ p) (h1 : p < 1) :
    jsFmod (jsFmod p 1 + 1) 1 = p := by
  have e1 : jsFmod p 1 = p := by
    unfold jsFmod
    rw [div_one, jsTrunc_eq_of_nonneg 0 le_rfl (by push_cast; linarith)
      (by push_cast; linarith)]
    push_cast
    ring
  rw [e1]
  unfold jsFmod
  rw [div_one, jsTrunc_eq_of_nonneg 1 (by norm_num) (by push_cast; linarith)
    (by push_cast; linarith)]
  push_cast
  ring

/-- **C6.** For every phase in `[0, 1)`, `moonPhasePath` returns the `'full'`
sentinel exactly when `|phase - 0.5| < 0.01`, and the empty path (nothing to
draw) exactly when `phase < 0.01` or `phase > 0.99`. -/
theorem moonPhasePath_sentinels (cx cy r phase : ℝ) (h0 : 0 ≤ phase)
    (h1 : phase < 1) :
    (moonPhasePath cx cy r phase = MoonPath.full ↔ |phase - 0.5| < 0.01) ∧
    (moonPhasePath cx cy r phase = MoonPath.empty ↔
      (phase < 0.01 ∨ phase > 0.99)) := by
  have hnorm := jsFmod_norm_of_Ico h0 h1
  simp only [moonPhasePath, hnorm]
  by_cases hE : phase < 0.01 ∨ phase > 0.99
  · rw [if_pos hE]
    have hFfalse : ¬ |phase - 0.5| < 0.01 := by
      intro h
      rcases abs_sub_lt_iff.mp h with ⟨ha, hb⟩
      rcases hE with h' | h' <;> linarith
    exact ⟨iff_of_false (by simp) hFfalse, iff_of_true rfl hE⟩
  · rw [if_neg hE]
    by_cases hF : |phase - 0.5| < 0.01
    · rw [if_pos hF]
      exact ⟨iff_of_true rfl hF, iff_of_false (by simp) hE⟩
    · rw [if_neg hF]
      refine ⟨iff_of_false ?_ hF, iff_of_false ?_ hE⟩ <;> split_ifs <;> simp

/-- Witness for **C6** at phase 0.5 (the full-moon sentinel). -/
theorem moonPhasePath_sentinels_witness :
    moonPhasePath 0 0 1 0.5 = MoonPath.full :=
  ((moonPhasePath_sentinels 0 0 1 0.5 (by norm_num) (by norm_num)).1).mpr
    (by rw [show (0.5 : ℝ) - 0.5 = 0 by norm_num]; rw [abs_zero]; norm_num)

/-! ### C9: sentinel branches of `getMoonTimes` -/

theorem sin_le_self {x : ℝ} (h : 0 ≤ x) : Real.sin x ≤ x := by
  rcases eq_or_lt_of_le h with h' | h'
  · rw [← h']
    simp
  · exact (Real.sin_lt h').le

theorem neg_abs_le_sin (x : ℝ) : -|x| ≤ Real.sin x := by
  rcases le_or_lt 1 |x| with hx | hx
  · linarith [Real.neg_one_le_sin x]
  · rcases le_or_lt 0 x with h | h
    · have h2 : 0 ≤ Real.sin x := by
        apply Real.sin_nonneg_of_nonneg_of_le_pi h
        have := le_abs_self x
        nlinarith [Real.pi_gt_three]
      linarith [abs_nonneg x]
    · have h2 : Real.sin (-x) ≤ -x := sin_le_self (by linarith)
      rw [Real.sin_neg] at h2
      rw [abs_of_neg h]
      linarith

theorem sin_le_abs_self (x : ℝ) : Real.sin x ≤ |x| := by
  have h := neg_abs_le_sin (-x)
  rw [Real.sin_neg, abs_neg] at h
  linarith

/-- **C9.** `getMoonTimes` maps `cos(H) < -1` (circumpolar moon) to
`{moonrise 0, moonset null}` and `cos(H) > 1` (moon never rises) to
`{moonrise null, moonset null}`, and whenever one of the two events does not
occur (its field is null) the corresponding compass-direction string is
empty. -/
theorem getMoonTimes_sentinels (t lat lon : ℝ) :
    (moonCosH t lat < -1 → getMoonTimes t lat lon = ⟨some 0, none, "", ""⟩) ∧
    (1 < moonCosH t lat → getMoonTimes t lat lon = ⟨none, none, "", ""⟩) ∧
    ((getMoonTimes t lat lon).moonrise = none →
      (getMoonTimes t lat lon).moonriseDir = "") ∧
    ((getMoonTimes t lat lon).moonset = none →
      (getMoonTimes t lat lon).moonsetDir = "") := by
  refine ⟨fun h => ?_, fun h => ?_, ?_, ?_⟩
  · unfold getMoonTimes
    rw [if_pos h]
  · unfold getMoonTimes
    rw [if_neg (by push_neg; linarith), if_pos h]
  · unfold getMoonTimes
    split_ifs <;> simp
  · unfold getMoonTimes
    split_ifs <;> simp

theorem moonJD_tWitness :
    moonJD tWitness - 2451545.0 = 36525 * (231.684 / 481267.8813) := by
  unfold moonJD tWitness
  rw [mul_div_cancel_right₀ _ (by norm_num : (86400000 : ℝ) ≠ 0)]
  norm_num

theorem moonT_tWitness : moonT tWitness = 231.684 / 481267.8813 := by
  unfold moonT
  rw [moonJD_tWitness]
  norm_num

theorem moonL0_tWitness : moonL0 tWitness = 90 := by
  unfold moonL0
  rw [moonT_tWitness,
    show 218.316 + 481267.8813 * (231.684 / 481267.8813) = (450 : ℝ) by norm_num]
  unfold jsFmod
  rw [show (450 : ℝ) / 360 = 1.25 by norm_num,
    jsTrunc_eq_of_nonneg 1 (by norm_num) (by norm_num) (by norm_num)]
  norm_num

theorem moonEpsilon_bounds :
    23.4389 ≤ moonEpsilon tWitness ∧ moonEpsilon tWitness ≤ 23.439 := by
  unfold moonEpsilon
  rw [moonJD_tWitness]
  constructor <;> norm_num

theorem moonLambda_bounds :
    83.711 ≤ moonLambda tWitness ∧ moonLambda tWitness ≤ 96.289 := by
  unfold moonLambda
  rw [moonL0_tWitness]
  have hs1 := Real.neg_one_le_sin (moonM tWitness * (π / 180))
  have hs2 := Real.sin_le_one (moonM tWitness * (π / 180))
  constructor <;> nlinarith

theorem moonBeta_abs (t : ℝ) : |moonBeta t| ≤ 5.128 := by
  unfold moonBeta
  rw [abs_mul, abs_of_pos (by norm_num : (0 : ℝ) < 5.128)]
  nlinarith [Real.abs_sin_le_one (moonF t * (π / 180)),
    abs_nonneg (Real.sin (moonF t * (π / 180)))]

set_option maxHeartbeats 1000000 in
theorem moonSinDec_bounds :
    0.29 ≤ moonSinDec tWitness ∧ moonSinDec tWitness ≤ 0.51 := by
  have hπl : (3.141592 : ℝ) < π := Real.pi_gt_3141592
  have hπu : π < 3.15 := Real.pi_lt_315
  have hβ := moonBeta_abs tWitness
  have hε := moonEpsilon_bounds
  have hlam := moonLambda_bounds
  unfold moonSinDec
  set βr := moonBeta tWitness * (π / 180) with hβr
  set εr := moonEpsilon tWitness * (π / 180) with hεr
  set lamr := moonLambda tWitness * (π / 180) with hlamr
  clear_value βr εr lamr
  have hβr_abs : |βr| ≤ 0.0898 := by
    rw [hβr, abs_mul, abs_of_pos (by positivity : (0 : ℝ) < π / 180)]
    nlinarith [mul_le_mul_of_nonneg_right hβ (by positivity : (0 : ℝ) ≤ π / 180),
      abs_nonneg (moonBeta tWitness)]
  have hεr_l : 0.409 ≤ εr := by rw [hεr]; nlinarith [hε.1, hε.2]
  have hεr_u : εr ≤ 0.4102 := by rw [hεr]; nlinarith [hε.1, hε.2]
  have hsinβ_l : -0.0898 ≤ Real.sin βr :=
    le_trans (by linarith [hβr_abs] : -(0.0898 : ℝ) ≤ -|βr|) (neg_abs_le_sin βr)
  have hsinβ_u : Real.sin βr ≤ 0.0898 := le_trans (sin_le_abs_self βr) hβr_abs
  have hcosβ_l : 0.9959 ≤ Real.cos βr := by
    have h := @Real.one_sub_sq_div_two_le_cos βr
    nlinarith [sq_abs βr, abs_nonneg βr]
  have hcosβ_u : Real.cos βr ≤ 1 := Real.cos_le_one βr
  have hcosε_u : Real.cos εr ≤ 1 := Real.cos_le_one εr
  have hcosε_l : 0 ≤ Real.cos εr := by
    apply Real.cos_nonneg_of_mem_Icc
    constructor <;> nlinarith
  have hcube : εr ^ 3 ≤ 0.4102 ^ 3 := by
    nlinarith [sq_nonneg εr, sq_nonneg (εr + 0.4102), sq_nonneg (εr - 0.4102)]
  have hsinε_l : 0.3917 ≤ Real.sin εr := by
    have h := Real.sin_gt_sub_cube (by linarith : (0 : ℝ) < εr)
      (by linarith : εr ≤ 1)
    nlinarith
  have hsinε_u : Real.sin εr ≤ 0.4102 := le_trans (sin_le_self (by linarith)) hεr_u
  have hsinε_pos : 0 < Real.sin εr := by linarith
  have hsinlam_l : 0.9938 ≤ Real.sin lamr := by
    have hid : Real.sin lamr = Real.cos (lamr - π / 2) := by
      rw [show lamr - π / 2 = -(π / 2 - lamr) by ring, Real.cos_neg,
        Real.cos_pi_div_two_sub]
    rw [hid]
    have habs : |lamr - π / 2| ≤ 0.111 := by
      rw [hlamr, show moonLambda tWitness * (π / 180) - π / 2 =
        (moonLambda tWitness - 90) * (π / 180) by ring, abs_mul,
        abs_of_pos (by positivity : (0 : ℝ) < π / 180)]
      have h90 : |moonLambda tWitness - 90| ≤ 6.289 :=
        abs_le.mpr ⟨by linarith [hlam.1], by linarith [hlam.2]⟩
      nlinarith [mul_le_mul_of_nonneg_right h90
        (by positivity : (0 : ℝ) ≤ π / 180), abs_nonneg (moonLambda tWitness - 90)]
    have h := @Real.one_sub_sq_div_two_le_cos (lamr - π / 2)
    nlinarith [sq_abs (lamr - π / 2), abs_nonneg (lamr - π / 2)]
  have hsinlam_u : Real.sin lamr ≤ 1 := Real.sin_le_one lamr
  constructor
  · have p1 : 0.9959 * 0.3917 ≤ Real.cos βr * Real.sin εr := by nlinarith
    have p2 : (0.9959 * 0.3917) * 0.9938 ≤
        (Real.cos βr * Real.sin εr) * Real.sin lamr := by
      nlinarith [p1]
    have p3 : -0.0898 ≤ Real.sin βr * Real.cos εr := by nlinarith
    nlinarith [p2, p3]
  · have q1 : Real.sin βr * Real.cos εr ≤ 0.0898 := by nlinarith
    have q2 : Real.cos βr * Real.sin εr ≤ Real.sin εr := by nlinarith
    have q3 : (Real.cos βr * Real.sin εr) * Real.sin lamr ≤
        Real.cos βr * Real.sin εr := by
      nlinarith [mul_nonneg (le_trans (by norm_num) hcosβ_l) hsinε_pos.le]
    nlinarith [q1, q2, q3]

theorem moonDec_facts : Real.sin (moonDec tWitness) = moonSinDec tWitness ∧
    0.85 ≤ Real.cos (moonDec tWitness) ∧ Real.cos (moonDec tWitness) ≤ 1 := by
  have hs := moonSinDec_bounds
  refine ⟨Real.sin_arcsin (by linarith [hs.1]) (by linarith [hs.2]), ?_,
    Real.cos_le_one _⟩
  unfold moonDec
  rw [Real.cos_arcsin]
  have h1 : (0.7399 : ℝ) ≤ 1 - moonSinDec tWitness ^ 2 := by
    nlinarith [hs.1, hs.2]
  nlinarith [Real.sq_sqrt (by linarith : (0 : ℝ) ≤ 1 - moonSinDec tWitness ^ 2),
    Real.sqrt_nonneg (1 - moonSinDec tWitness ^ 2)]

theorem lat80_trig : 0.9846 ≤ Real.sin ((80 : ℝ) * (π / 180)) ∧
    0 < Real.cos ((80 : ℝ) * (π / 180)) ∧
    Real.cos ((80 : ℝ) * (π / 180)) ≤ 0.175 := by
  have hπl : (3.141592 : ℝ) < π := Real.pi_gt_3141592
  have hπu : π < 3.15 := Real.pi_lt_315
  refine ⟨?_, ?_, ?_⟩
  · have hid : Real.sin ((80 : ℝ) * (π / 180)) = Real.cos (10 * (π / 180)) := by
      rw [show (10 : ℝ) * (π / 180) = π / 2 - 80 * (π / 180) by ring,
        Real.cos_pi_div_two_sub]
    rw [hid]
    have h := @Real.one_sub_sq_div_two_le_cos ((10 : ℝ) * (π / 180))
    have hx : (10 : ℝ) * (π / 180) ≤ 0.175 := by nlinarith
    have hx0 : (0 : ℝ) ≤ 10 * (π / 180) := by positivity
    nlinarith
  · apply Real.cos_pos_of_mem_Ioo
    constructor <;> nlinarith
  · rw [show (80 : ℝ) * (π / 180) = π / 2 - 10 * (π / 180) by ring,
      Real.cos_pi_div_two_sub]
    have h := @sin_le_self (10 * (π / 180)) (by positivity)
    nlinarith

theorem sin_moonH0_bounds : 0 < Real.sin moonH0 ∧ Real.sin moonH0 ≤ 0.0022 := by
  have hπl : (3.141592 : ℝ) < π := Real.pi_gt_3141592
  have hπu : π < 3.15 := Real.pi_lt_315
  unfold moonH0
  constructor
  · exact Real.sin_pos_of_pos_of_lt_pi (by positivity) (by nlinarith)
  · have h := @sin_le_self (0.125 * (π / 180)) (by positivity)
    nlinarith

theorem moonCosH_north_lt : moonCosH tWitness 80 < -1 := by
  have hd := moonDec_facts
  have hs := moonSinDec_bounds
  have h80 := lat80_trig
  have hh0 := sin_moonH0_bounds
  unfold moonCosH
  rw [hd.1]
  have hden : 0 < Real.cos ((80 : ℝ) * (π / 180)) * Real.cos (moonDec tWitness) :=
    mul_pos h80.2.1 (by linarith [hd.2.1])
  rw [div_lt_iff hden]
  have hnum : Real.sin moonH0 -
      Real.sin ((80 : ℝ) * (π / 180)) * moonSinDec tWitness ≤ -0.283 := by
    nlinarith [hh0.2, h80.1, hs.1, hs.2]
  have hden_u : Real.cos ((80 : ℝ) * (π / 180)) * Real.cos (moonDec tWitness) ≤
      0.175 := by
    nlinarith [h80.2.2, hd.2.2, h80.2.1, hd.2.1]
  nlinarith

theorem moonCosH_south_gt : 1 < moonCosH tWitness (-80) := by
  have hd := moonDec_facts
  have hs := moonSinDec_bounds
  have h80 := lat80_trig
  have hh0 := sin_moonH0_bounds
  unfold moonCosH
  rw [show ((-80 : ℝ)) * (π / 180) = -((80 : ℝ) * (π / 180)) by ring,
    Real.sin_neg, Real.cos_neg, hd.1]
  have hden : 0 < Real.cos ((80 : ℝ) * (π / 180)) * Real.cos (moonDec tWitness) :=
    mul_pos h80.2.1 (by linarith [hd.2.1])
  rw [lt_div_iff hden]
  have hnum : 0.283 ≤ Real.sin moonH0 +
      Real.sin ((80 : ℝ) * (π / 180)) * moonSinDec tWitness := by
    nlinarith [hh0.1, h80.1, hs.1, hs.2]
  have hden_u : Real.cos ((80 : ℝ) * (π / 180)) * Real.cos (moonDec tWitness) ≤
      0.175 := by
    nlinarith [h80.2.2, hd.2.2, h80.2.1, hd.2.1]
  nlinarith

/-- Witness for **C9**: a concrete timestamp and latitude 80°N where the moon
is circumpolar (and 80°S where it never rises), discharging the sentinel
hypotheses. -/
theorem getMoonTimes_sentinels_witness :
    getMoonTimes tWitness 80 0 = ⟨some 0, none, "", ""⟩ ∧
    getMoonTimes tWitness (-80) 0 = ⟨none, none, "", ""⟩ :=
  ⟨(getMoonTimes_sentinels tWitness 80 0).1 moonCosH_north_lt,
    (getMoonTimes_sentinels tWitness (-80) 0).2.1 moonCosH_south_gt⟩

end SunClockModel
